import Mathlib

/-!
Shallow embedding of the github-activity-bot orchestration pipeline and
memory-persistence layer (app/graph.py, app/services/memory_service.py,
app/services/github_service.py, app/services/ai_service.py, app/main.py).

External collaborators (the GitHub API, the Gemini LLM, the mem0 store)
are modelled as oracles: an `Except String _` value describing the one
outcome the external call would have produced in the run under
consideration (`Except.error e` meaning the call raised an exception whose
string rendering is `e`).
-/

namespace GithubBot

/-- app/models.py `Commit`: single commit data.  `date` (a datetime) is
abstracted to a `Nat` timestamp. -/
structure Commit where
  repo : String
  message : String
  date : Nat
  sha : String
deriving DecidableEq, Repr

/-- app/models.py `GitHubData`: complete GitHub data. -/
structure GitHubData where
  commits : List Commit
  total_commits : Nat
  time_range : String
deriving DecidableEq, Repr

/-- app/graph.py `PipelineState`: the state flowing through LangGraph.
Optional (`| None`) fields become `Option`. -/
structure PipelineState where
  question : String
  user_id : String
  github_data : Option GitHubData
  answer : Option String
  commits_analyzed : Nat
  error : Option String
  force_store : Bool
deriving DecidableEq, Repr

/-- Python `str(x)` applied to an `Optional[str]`: `None` renders as
`"None"` (used when an absent answer is interpolated into an f-string). -/
def pyStr : Option String → String
  | some s => s
  | none => "None"

/-! ## Memory service (app/services/memory_service.py) -/

/-- The parsed filter response `{"store": ..., "reason": ...}`.  The code
reads `result["store"]` and `result["reason"]` inside the `try` block, so
an outcome in which either key is missing (or the JSON is unparseable)
raises and lands in the `except` branch; a successful parse therefore
always carries both fields. -/
structure FilterDecision where
  store : Bool
  reason : String
deriving DecidableEq, Repr

/-- Required metadata schema built by `MemoryService._build_metadata`. -/
structure Metadata where
  type : String
  source : String
  created_by : String
  created_at : String
  sensitivity : String
  commits_analyzed : Nat
  tags : List String
deriving DecidableEq, Repr

/-- One record appended to the mem0 store by `self.memory.add`: the
user/assistant message pair plus the scoping `user_id` and metadata. -/
structure StoredRecord where
  user_id : String
  question : String
  answer : Option String
  metadata : Metadata
deriving DecidableEq, Repr

/-- The dict returned by `MemoryService.add_memory`; absent keys are
`none`. -/
structure AddResult where
  success : Bool
  filtered : Option Bool
  reason : Option String
  error : Option String
deriving DecidableEq, Repr

/-- Oracles for one `add_memory` call: the content-filter LLM call
(`invoke` + JSON parse, `Except.error` when the provider raises or the
response is malformed) and the `self.memory.add` store write. -/
structure MemEnv where
  filterOutcome : Except String FilterDecision
  storeOutcome : Except String Unit
  now : String
deriving Repr

/-- `MemoryService._build_container_tags`: `[f"user_{user_id}"]`. -/
def build_container_tags (user_id : String) : List String :=
  ["user_" ++ user_id]

/-- `MemoryService._build_metadata`: the required metadata schema;
`datetime.now().isoformat()` is the `now` oracle. -/
def build_metadata (user_id : String) (commits_analyzed : Nat) (now : String) : Metadata :=
  { type := "conversation"
    source := "discord"
    created_by := user_id
    created_at := now
    sensitivity := "private"
    commits_analyzed := commits_analyzed
    tags := ["github", "activity", "bot-interaction"] }

/-- `MemoryService._should_store_content`: delegate to the filter LLM and
parse its JSON; any exception (provider failure, unparseable output,
missing key) is caught and defaults to storing. -/
def should_store_content (filterOutcome : Except String FilterDecision)
    (_content _source : String) : FilterDecision :=
  match filterOutcome with
  | Except.ok result => result
  | Except.error _ => { store := true, reason := "Filter error - storing by default" }

/-- Full observable outcome of one `MemoryService.add_memory` call: the
returned dict, whether the content filter was invoked, the internal
`filter_decision`, whether `self.memory.add` was invoked, and the records
actually appended to the store (empty when the write raised or was
filtered out). -/
structure AddTrace where
  result : AddResult
  filterCalled : Bool
  decision : FilterDecision
  writeAttempted : Bool
  written : List StoredRecord
deriving DecidableEq, Repr

/-- `MemoryService.add_memory`: add a Q&A to memory.  `force_store` skips
the filter and fixes `{"store": True, "reason": "User override"}`;
otherwise the Layer-2 content filter decides.  A filtered-out candidate
returns `{"success": False, "filtered": True, "reason": ...}` without
touching the store; otherwise `self.memory.add` is invoked, and the outer
`except` turns a store exception into `{"success": False, "error": e}`.
The function never raises. -/
def add_memory (env : MemEnv) (user_id question : String) (answer : Option String)
    (commits_analyzed : Nat) (force_store : Bool) : AddTrace :=
  let _container_tags := build_container_tags user_id
  let content := "Question: " ++ question ++ "\nAnswer: " ++ pyStr answer
  let fd : FilterDecision × Bool :=
    if force_store then
      ({ store := true, reason := "User override" }, false)
    else
      (should_store_content env.filterOutcome content "discord", true)
  let filter_decision := fd.1
  let filterCalled := fd.2
  let should_store := filter_decision.store
  if !should_store then
    { result := { success := false, filtered := some true,
                  reason := some filter_decision.reason, error := none }
      filterCalled := filterCalled
      decision := filter_decision
      writeAttempted := false
      written := [] }
  else
    let metadata := build_metadata user_id commits_analyzed env.now
    match env.storeOutcome with
    | Except.ok _ =>
      { result := { success := true, filtered := some false,
                    reason := some filter_decision.reason, error := none }
        filterCalled := filterCalled
        decision := filter_decision
        writeAttempted := true
        written := [{ user_id := user_id, question := question,
                      answer := answer, metadata := metadata }] }
    | Except.error e =>
      { result := { success := false, filtered := none, reason := none,
                    error := some e }
        filterCalled := filterCalled
        decision := filter_decision
        writeAttempted := true
        written := [] }

/-- Modelled from the spec: the mem0 store boundary (`Memory.get_all`),
which is an external collaborator not under src/.  The store holds the
appended records in insertion order; `get_all(user_id=u)` returns the
records written under `u`, preserving insertion order (spec §4.3:
most-recent-last semantics). -/
def memGetAll (store : List StoredRecord) (user_id : String) : List StoredRecord :=
  store.filter (fun r => r.user_id == user_id)

/-- Python slice `xs[start:]`, including the negative-index convention:
a negative `start` counts back from the end (clamped at 0), a
non-negative `start` is clamped at `len(xs)`. -/
def pySliceSuffix {α : Type} (xs : List α) (start : Int) : List α :=
  let n : Int := (xs.length : Int)
  let s : Int := if start < 0 then max (n + start) 0 else min start n
  xs.drop s.toNat

/-- `MemoryService.get_history`: fetch all of the user's memories and
return `memories[-limit:]` (the last `limit` of them); the `storeOutcome`
oracle is the `self.memory.get_all` call, whose exception is caught and
turned into `[]`. -/
def get_history (storeOutcome : Except String (List StoredRecord))
    (user_id : String) (limit : Int) : List StoredRecord :=
  match storeOutcome with
  | Except.error _ => []
  | Except.ok store =>
    let memories := memGetAll store user_id
    if memories.isEmpty then [] else pySliceSuffix memories (-limit)

/-- `MemoryService.search_memories`: the `searchOutcome` oracle is the
`self.memory.search` call (`Except.error` when it raises, `Except.ok
none` when it returns a falsy result); exceptions and falsy results both
yield `[]`. -/
def search_memories (searchOutcome : Except String (Option (List StoredRecord)))
    (_user_id _query : String) (_limit : Int) : List StoredRecord :=
  match searchOutcome with
  | Except.error _ => []
  | Except.ok none => []
  | Except.ok (some results) => results

/-! ## GitHub service (app/services/github_service.py) -/

/-- `GitHubService.get_recent_commits`: the `fetchRaw` oracle is the
thread-pool fetch of the commit list (`Except.error` covering provider
failure and the 30-second timeout, both of which raise out of the
method); on success the result wraps the list with `total_commits =
len(commits)` and the time-range label. -/
def get_recent_commits (fetchRaw : Except String (List Commit)) (hours : Nat) :
    Except String GitHubData :=
  match fetchRaw with
  | Except.error e => Except.error e
  | Except.ok commits =>
    Except.ok { commits := commits
                total_commits := commits.length
                time_range := "last " ++ toString hours ++ " hours" }

/-! ## AI service (app/services/ai_service.py) -/

/-- `strftime("%I:%M %p")` on the abstracted timestamp. -/
def formatTime (date : Nat) : String := toString date

/-- One line of the prompt context: `f"[{repo}] {message} ({time})"`. -/
def renderCommit (c : Commit) : String :=
  "[" ++ c.repo ++ "] " ++ c.message ++ " (" ++ formatTime c.date ++ ")"

/-- Python `"\n".join(xs)`. -/
def joinLines : List String → String
  | [] => ""
  | [x] => x
  | x :: y :: xs => x ++ "\n" ++ joinLines (y :: xs)

/-- `AIService.answer_question`: returns the canned no-activity answer
without calling the LLM when there is no GitHub data, no commits, or an
empty context; otherwise the result is the LLM call's outcome (the
`llmAnswer` oracle, `Except.error` covering a provider failure or the
30-second timeout, both of which raise).  The second component records
whether the LLM (the Synthesizer) was actually invoked. -/
def answer_question (llmAnswer : Except String String) (_question : String)
    (github_data : Option GitHubData) : Except String String × Bool :=
  match github_data with
  | none => (Except.ok "No recent commits found.", false)
  | some data =>
    if data.commits.isEmpty then
      (Except.ok "No recent commits found.", false)
    else
      let context := joinLines (data.commits.map renderCommit)
      if context = "" then (Except.ok "No recent commits found.", false)
      else (llmAnswer, true)

/-! ## LangGraph pipeline (app/graph.py) -/

/-- Node 1, `fetch_github_data`: on success record the data and the
commit count; on exception set `error` (leaving `github_data` and
`commits_analyzed` untouched). -/
def fetch_github_data (fetchRaw : Except String (List Commit))
    (state : PipelineState) : PipelineState :=
  match get_recent_commits fetchRaw 24 with
  | Except.ok github_data =>
    { state with github_data := some github_data
                 commits_analyzed := github_data.total_commits }
  | Except.error e =>
    { state with error := some ("GitHub fetch failed: " ++ e) }

/-- Node 2, `analyze_with_ai`: store the answer on success, set `error`
on exception; the Bool records whether the LLM was invoked. -/
def analyze_with_ai (llmAnswer : Except String String)
    (state : PipelineState) : PipelineState × Bool :=
  match answer_question llmAnswer state.question state.github_data with
  | (Except.ok answer, called) => ({ state with answer := some answer }, called)
  | (Except.error e, called) => ({ state with error := some ("AI failed: " ++ e) }, called)

/-- Node 3, `save_to_memory`: call `memory_service.add_memory` and return
the state unchanged.  `add_memory` catches every exception internally, so
this node's own `except` branch (which would set `error`) is
unreachable. -/
def save_to_memory (env : MemEnv) (state : PipelineState) : PipelineState × AddTrace :=
  let trace := add_memory env state.user_id state.question state.answer
      state.commits_analyzed state.force_store
  (state, trace)

/-- `handle_error` node: logs and returns the state unchanged (it does
not set or alter `error`). -/
def handle_error (state : PipelineState) : PipelineState :=
  state

/-- Routing targets of the conditional edge after `fetch`. -/
inductive Route where
  | analyze
  | error
deriving DecidableEq, Repr

/-- `should_continue_after_fetch`: route to the error handler when
`error` is set or no commits were fetched, else continue to `analyze`. -/
def should_continue_after_fetch (state : PipelineState) : Route :=
  if state.error.isSome then Route.error
  else if state.commits_analyzed == 0 then Route.error
  else Route.analyze

/-- Oracles for one whole pipeline run. -/
structure Env where
  fetchRaw : Except String (List Commit)
  llmAnswer : Except String String
  filterOutcome : Except String FilterDecision
  storeOutcome : Except String Unit
  now : String
deriving Repr

/-- The memory-service slice of a run's oracles. -/
def Env.memEnv (env : Env) : MemEnv :=
  { filterOutcome := env.filterOutcome
    storeOutcome := env.storeOutcome
    now := env.now }

/-- Observable outcome of one compiled-graph invocation: the final state
plus which external calls happened along the way. -/
structure RunTrace where
  finalState : PipelineState
  llmCalled : Bool
  addMemoryCalled : Bool
  filterCalled : Bool
  storeAddAttempted : Bool
  written : List StoredRecord
  reachedErrorNode : Bool
deriving DecidableEq, Repr

/-- The compiled graph of `create_pipeline_graph`: entry node `fetch`,
conditional edge `fetch -(should_continue_after_fetch)-> analyze | error`,
then the unconditional edges `analyze -> save`, `save -> END`,
`error -> END`. -/
def run_pipeline (env : Env) (state0 : PipelineState) : RunTrace :=
  let s1 := fetch_github_data env.fetchRaw state0
  match should_continue_after_fetch s1 with
  | Route.error =>
    let sFinal := handle_error s1
    { finalState := sFinal
      llmCalled := false
      addMemoryCalled := false
      filterCalled := false
      storeAddAttempted := false
      written := []
      reachedErrorNode := true }
  | Route.analyze =>
    let s2c := analyze_with_ai env.llmAnswer s1
    let s3t := save_to_memory env.memEnv s2c.1
    { finalState := s3t.1
      llmCalled := s2c.2
      addMemoryCalled := true
      filterCalled := s3t.2.filterCalled
      storeAddAttempted := s3t.2.writeAttempted
      written := s3t.2.written
      reachedErrorNode := false }

/-! ## API caller (app/main.py) -/

/-- app/models.py `Answer` (timestamp omitted). -/
structure Answer where
  question : String
  answer : String
  commits_analyzed : Nat
deriving DecidableEq, Repr

/-- Outcome of the `/ask` endpoint: a 200 `Answer` or an
`HTTPException`. -/
inductive ApiOutcome where
  | success (a : Answer)
  | httpError (status : Nat) (detail : String)
deriving DecidableEq, Repr

/-- The initial `PipelineState` built by `ask_api` (and identically by
the Discord `ask` command): both callers hardcode
`force_store := False`. -/
def initial_state (question user_id : String) : PipelineState :=
  { question := question
    user_id := user_id
    github_data := none
    answer := none
    commits_analyzed := 0
    error := none
    force_store := false }

/-- `ask_api`: run the pipeline; a set `error` becomes an HTTP 500 with
that detail; otherwise build `Answer(question, result["answer"],
result["commits_analyzed"])`.  When `answer` is `None`, pydantic
validation of `Answer` raises, which the outer `except` converts into an
HTTP 500 (the detail string is pydantic-generated and abstracted
here). -/
def ask_api (env : Env) (question user_id : String) : ApiOutcome :=
  let result := run_pipeline env (initial_state question user_id)
  match result.finalState.error with
  | some e => ApiOutcome.httpError 500 e
  | none =>
    match result.finalState.answer with
    | some a =>
      ApiOutcome.success { question := question, answer := a,
                           commits_analyzed := result.finalState.commits_analyzed }
    | none => ApiOutcome.httpError 500 "pydantic validation error: answer is None"

/-! ## Helper lemmas -/

lemma renderCommit_length_pos (c : Commit) : 0 < (renderCommit c).length := by
  unfold renderCommit
  rw [String.length_append]
  have h : (")" : String).length = 1 := rfl
  omega

lemma joinLines_cons_length (x : String) (xs : List String) :
    x.length ≤ (joinLines (x :: xs)).length := by
  cases xs with
  | nil => simp [joinLines]
  | cons y ys =>
    show x.length ≤ (x ++ "\n" ++ joinLines (y :: ys)).length
    rw [String.length_append, String.length_append]
    omega

lemma joinLines_render_ne (c : Commit) (l : List String) :
    joinLines (renderCommit c :: l) ≠ "" := by
  intro h
  have h1 := joinLines_cons_length (renderCommit c) l
  have h2 := renderCommit_length_pos c
  rw [h] at h1
  have h3 : ("" : String).length = 0 := rfl
  omega

lemma timeRange24 : "last " ++ toString 24 ++ " hours" = "last 24 hours" := by decide

lemma answer_question_of_ne_nil (llm : Except String String) (q : String)
    (d : GitHubData) (hne : d.commits ≠ []) :
    answer_question llm q (some d) = (llm, true) := by
  obtain ⟨cl, tc, tr⟩ := d
  cases cl with
  | nil => simp at hne
  | cons c cs =>
    simp only [answer_question, List.isEmpty_cons, Bool.false_eq_true, if_false,
               List.map_cons]
    rw [if_neg (joinLines_render_ne c _)]

lemma save_to_memory_fst (env : MemEnv) (s : PipelineState) :
    (save_to_memory env s).1 = s := rfl

lemma analyze_with_ai_eq (llm : Except String String) (s : PipelineState)
    (d : GitHubData) (hd : s.github_data = some d) (hne : d.commits ≠ []) :
    analyze_with_ai llm s =
      (match llm with
       | Except.ok a => ({ s with answer := some a }, true)
       | Except.error e => ({ s with error := some ("AI failed: " ++ e) }, true)) := by
  unfold analyze_with_ai
  rw [hd, answer_question_of_ne_nil llm s.question d hne]
  cases llm <;> rfl

/-- The pipeline state right after a successful fetch of `c :: cs`,
starting from `initial_state q uid`. -/
def postFetchState (q uid : String) (c : Commit) (cs : List Commit) : PipelineState :=
  { question := q
    user_id := uid
    github_data := some { commits := c :: cs, total_commits := (c :: cs).length,
                          time_range := "last 24 hours" }
    answer := none
    commits_analyzed := (c :: cs).length
    error := none
    force_store := false }

lemma run_pipeline_fetch_error (env : Env) (q uid e : String)
    (hf : env.fetchRaw = Except.error e) :
    run_pipeline env (initial_state q uid) =
      { finalState := { initial_state q uid with
                        error := some ("GitHub fetch failed: " ++ e) }
        llmCalled := false
        addMemoryCalled := false
        filterCalled := false
        storeAddAttempted := false
        written := []
        reachedErrorNode := true } := by
  simp [run_pipeline, fetch_github_data, get_recent_commits, hf,
        should_continue_after_fetch, handle_error, initial_state, timeRange24]

lemma run_pipeline_fetch_nil (env : Env) (q uid : String)
    (hf : env.fetchRaw = Except.ok []) :
    run_pipeline env (initial_state q uid) =
      { finalState := { initial_state q uid with
                        github_data := some { commits := [], total_commits := 0,
                                              time_range := "last 24 hours" } }
        llmCalled := false
        addMemoryCalled := false
        filterCalled := false
        storeAddAttempted := false
        written := []
        reachedErrorNode := true } := by
  simp [run_pipeline, fetch_github_data, get_recent_commits, hf,
        should_continue_after_fetch, handle_error, initial_state, timeRange24]

lemma run_pipeline_fetch_cons (env : Env) (q uid : String) (c : Commit) (cs : List Commit)
    (hf : env.fetchRaw = Except.ok (c :: cs)) :
    run_pipeline env (initial_state q uid) =
      { finalState := (analyze_with_ai env.llmAnswer (postFetchState q uid c cs)).1
        llmCalled := (analyze_with_ai env.llmAnswer (postFetchState q uid c cs)).2
        addMemoryCalled := true
        filterCalled :=
          (save_to_memory env.memEnv
            (analyze_with_ai env.llmAnswer (postFetchState q uid c cs)).1).2.filterCalled
        storeAddAttempted :=
          (save_to_memory env.memEnv
            (analyze_with_ai env.llmAnswer (postFetchState q uid c cs)).1).2.writeAttempted
        written :=
          (save_to_memory env.memEnv
            (analyze_with_ai env.llmAnswer (postFetchState q uid c cs)).1).2.written
        reachedErrorNode := false } := by
  simp [run_pipeline, fetch_github_data, get_recent_commits, hf,
        should_continue_after_fetch, initial_state, postFetchState,
        save_to_memory_fst, timeRange24]

lemma add_memory_written_meta (env : MemEnv) (uid q : String) (a : Option String)
    (n : Nat) (fs : Bool) :
    ∀ r ∈ (add_memory env uid q a n fs).written, r.metadata.commits_analyzed = n := by
  obtain ⟨fo, so, now⟩ := env
  cases fs <;>
    rcases fo with _ | ⟨st, rs⟩ <;>
    first
      | (cases st <;> cases so <;> simp [add_memory, should_store_content, build_metadata])
      | (cases so <;> simp [add_memory, should_store_content, build_metadata])

lemma pySliceSuffix_neg {α : Type} (xs : List α) (k : Int) (hk : 1 ≤ k) :
    pySliceSuffix xs (-k) = xs.drop (xs.length - k.toNat) := by
  simp only [pySliceSuffix]
  have h0 : (-k) < 0 := by omega
  rw [if_pos h0]
  congr 1
  rcases le_total ((xs.length : Int) + -k) 0 with hc | hc
  · rw [max_eq_right hc]
    omega
  · rw [max_eq_left hc]
    omega

/-! ## Concrete sample values used by counterexamples and witnesses -/

def sampleCommit : Commit :=
  { repo := "demo-repo", message := "fix parsing bug", date := 10, sha := "abc1234" }

def sampleRec : StoredRecord :=
  { user_id := "u1", question := "q0", answer := some "a0",
    metadata := build_metadata "u1" 1 "2024-01-01T00:00:00" }

/-! ## Claims -/

/-- Claim C7: when the classification provider fails or returns malformed
output, `_should_store_content` yields `store = true` with the
filter-failure reason text, and the fail-open default is identical for
every failure. -/
theorem c7_filter_fail_open (content source e : String) :
    should_store_content (Except.error e) content source =
      { store := true, reason := "Filter error - storing by default" } ∧
    ∀ e2 : String,
      should_store_content (Except.error e) content source =
        should_store_content (Except.error e2) content source := by
  exact ⟨rfl, fun _ => rfl⟩

/-- Claim C6 (counterexample): at a concrete `force_store = true` call the
internal decision's reason is the string `"User override"`, which differs
from the spec's quoted `"user override"`. -/
theorem c6_counterexample :
    (add_memory
        { filterOutcome := Except.ok { store := false, reason := "judged unimportant" },
          storeOutcome := Except.ok (), now := "2024-01-01T00:00:00" }
        "u1" "what did I ship?" (some "three fixes") 3 true).decision.reason
      = "User override" ∧
    "User override" ≠ "user override" := by
  exact ⟨rfl, by decide⟩

/-- Claim C6 (amended): with `force_store = true` the content filter is
never invoked and the write is attempted with the fixed decision
`retain = true, reason = "User override"`, whatever the filter outcome
would have been. -/
theorem c6_force_store_bypasses_filter (env : MemEnv) (uid q : String)
    (a : Option String) (n : Nat) :
    (add_memory env uid q a n true).filterCalled = false ∧
    (add_memory env uid q a n true).decision =
      { store := true, reason := "User override" } ∧
    (add_memory env uid q a n true).writeAttempted = true := by
  cases hs : env.storeOutcome <;> simp [add_memory, hs]

/-- Claim C5 (counterexample): with `force_store = true` but an
unavailable store, the write is attempted yet no MemoryRecord is created,
refuting the unconditional "a MemoryRecord is created if force_store"
direction. -/
theorem c5_counterexample :
    (add_memory
        { filterOutcome := Except.ok { store := true, reason := "relevant" },
          storeOutcome := Except.error "store down", now := "2024-01-01T00:00:00" }
        "u1" "what did I ship?" (some "three fixes") 3 true).written = [] ∧
    (add_memory
        { filterOutcome := Except.ok { store := true, reason := "relevant" },
          storeOutcome := Except.error "store down", now := "2024-01-01T00:00:00" }
        "u1" "what did I ship?" (some "three fixes") 3 true).writeAttempted = true := by
  exact ⟨rfl, rfl⟩

/-- Claim C5 (amended): a store write is attempted iff `force_store` is
true, or the filter returns `store = true`, or the filter call fails; and
a MemoryRecord is actually created iff such a write is attempted and the
underlying store add succeeds. -/
theorem c5_store_write_iff (env : MemEnv) (uid q : String) (a : Option String)
    (n : Nat) (fs : Bool) :
    ((add_memory env uid q a n fs).writeAttempted = true ↔
      (fs = true ∨
       (∃ r, env.filterOutcome = Except.ok r ∧ r.store = true) ∨
       (∃ e, env.filterOutcome = Except.error e))) ∧
    ((add_memory env uid q a n fs).written ≠ [] ↔
      ((add_memory env uid q a n fs).writeAttempted = true ∧
       env.storeOutcome = Except.ok ())) := by
  obtain ⟨fo, so, now⟩ := env
  cases fs <;>
    rcases fo with _ | ⟨st, rs⟩ <;>
    first
      | (cases st <;> cases so <;>
          simp [add_memory, should_store_content])
      | (cases so <;> simp [add_memory, should_store_content])

/-- Claim C8 (counterexample): with one stored record and `limit = 0`,
`get_history` returns that record (`memories[-0:]` is the whole list), so
the result is not bounded by the limit. -/
theorem c8_counterexample :
    get_history (Except.ok [sampleRec]) "u1" 0 = [sampleRec] ∧
    ¬ ((get_history (Except.ok [sampleRec]) "u1" 0).length ≤ 0) := by
  constructor
  · rfl
  · decide

/-- Claim C8 (amended): for every positive `limit`, `get_history` returns
at most `limit` records, only records written under the requesting user's
tag, and exactly the most-recent-last suffix of that user's history (so
fewer records when there is less history and none when there is none). -/
theorem c8_get_history_bounded (store : List StoredRecord) (uid : String)
    (limit : Int) (h : 1 ≤ limit) :
    (get_history (Except.ok store) uid limit).length ≤ limit.toNat ∧
    (∀ r ∈ get_history (Except.ok store) uid limit, r.user_id = uid) ∧
    get_history (Except.ok store) uid limit =
      (memGetAll store uid).drop ((memGetAll store uid).length - limit.toNat) := by
  have key : get_history (Except.ok store) uid limit =
      (memGetAll store uid).drop ((memGetAll store uid).length - limit.toNat) := by
    simp only [get_history]
    by_cases hms : (memGetAll store uid).isEmpty = true
    · rw [if_pos hms]
      rw [List.isEmpty_iff] at hms
      rw [hms]
      simp
    · rw [if_neg hms, pySliceSuffix_neg _ limit h]
  refine ⟨?_, ?_, key⟩
  · rw [key, List.length_drop]
    omega
  · intro r hr
    rw [key] at hr
    have hmem : r ∈ memGetAll store uid := List.mem_of_mem_drop hr
    unfold memGetAll at hmem
    rw [List.mem_filter] at hmem
    exact eq_of_beq hmem.2

/-- Claim C8 (witness): the amended theorem applied at one record and
`limit = 1`. -/
theorem c8_witness :
    (1 : Int) ≤ 1 ∧
    ((get_history (Except.ok [sampleRec]) "u1" 1).length ≤ (1 : Int).toNat ∧
     (∀ r ∈ get_history (Except.ok [sampleRec]) "u1" 1, r.user_id = "u1") ∧
     get_history (Except.ok [sampleRec]) "u1" 1 =
       (memGetAll [sampleRec] "u1").drop ((memGetAll [sampleRec] "u1").length - (1 : Int).toNat)) :=
  ⟨by decide, c8_get_history_bounded [sampleRec] "u1" 1 (by decide)⟩

/-- Claim C9: when the underlying store throws, `add_memory` returns a
not-stored outcome carrying the error instead of raising, and
`get_history` and `search_memories` each return the empty sequence
instead of raising. -/
theorem c9_store_failure_semantics (env : MemEnv) (e uid q query : String)
    (a : Option String) (n : Nat) (fs : Bool) (limit : Int)
    (h : env.storeOutcome = Except.error e) :
    (add_memory env uid q a n fs).result.success = false ∧
    ((add_memory env uid q a n fs).writeAttempted = true →
      (add_memory env uid q a n fs).result =
        { success := false, filtered := none, reason := none, error := some e }) ∧
    get_history (Except.error e) uid limit = [] ∧
    search_memories (Except.error e) uid query limit = [] := by
  obtain ⟨fo, so, now⟩ := env
  simp only at h
  subst h
  refine ⟨?_, ?_, rfl, rfl⟩ <;>
    cases fs <;>
    rcases fo with _ | ⟨st, rs⟩ <;>
    first
      | (cases st <;> simp [add_memory, should_store_content])
      | simp [add_memory, should_store_content]

/-- Claim C9 (witness): the theorem applied at a concrete failing
store. -/
theorem c9_witness :
    ({ filterOutcome := Except.ok { store := true, reason := "relevant" },
       storeOutcome := Except.error "store down",
       now := "2024-01-01T00:00:00" } : MemEnv).storeOutcome = Except.error "store down" ∧
    ((add_memory
        { filterOutcome := Except.ok { store := true, reason := "relevant" },
          storeOutcome := Except.error "store down", now := "2024-01-01T00:00:00" }
        "u1" "what did I ship?" (some "three fixes") 3 true).result.success = false ∧
     ((add_memory
        { filterOutcome := Except.ok { store := true, reason := "relevant" },
          storeOutcome := Except.error "store down", now := "2024-01-01T00:00:00" }
        "u1" "what did I ship?" (some "three fixes") 3 true).writeAttempted = true →
      (add_memory
        { filterOutcome := Except.ok { store := true, reason := "relevant" },
          storeOutcome := Except.error "store down", now := "2024-01-01T00:00:00" }
        "u1" "what did I ship?" (some "three fixes") 3 true).result =
        { success := false, filtered := none, reason := none, error := some "store down" }) ∧
     get_history (Except.error "store down") "u1" 5 = [] ∧
     search_memories (Except.error "store down") "u1" "what did I ship?" 5 = []) :=
  ⟨rfl, c9_store_failure_semantics
    { filterOutcome := Except.ok { store := true, reason := "relevant" },
      storeOutcome := Except.error "store down", now := "2024-01-01T00:00:00" }
    "store down" "u1" "what did I ship?" "what did I ship?" (some "three fixes") 3 true 5 rfl⟩

def envZero : Env :=
  { fetchRaw := Except.ok []
    llmAnswer := Except.ok "unused"
    filterOutcome := Except.ok { store := true, reason := "relevant" }
    storeOutcome := Except.ok ()
    now := "2024-01-01T00:00:00" }

def envC1 : Env :=
  { fetchRaw := Except.ok [sampleCommit]
    llmAnswer := Except.ok "You shipped 3 fixes today"
    filterOutcome := Except.ok { store := true, reason := "relevant" }
    storeOutcome := Except.error "store down"
    now := "2024-01-01T00:00:00" }

def envC3 : Env :=
  { fetchRaw := Except.ok [sampleCommit]
    llmAnswer := Except.error "AI service request timed out. Please try again."
    filterOutcome := Except.ok { store := true, reason := "relevant" }
    storeOutcome := Except.ok ()
    now := "2024-01-01T00:00:00" }

def envFetchFail : Env :=
  { fetchRaw := Except.error "GitHub API request timed out. Please try again."
    llmAnswer := Except.ok "unused"
    filterOutcome := Except.ok { store := true, reason := "relevant" }
    storeOutcome := Except.ok ()
    now := "2024-01-01T00:00:00" }

/-- Claim C1: when the run reaches the persist stage with a successful
answer and the memory-persistence step fails, the final state still
carries the answer with no error set, and the API caller reports
success. -/
theorem c1_persist_failure_keeps_answer (env : Env) (q uid a e : String)
    (c : Commit) (cs : List Commit)
    (hf : env.fetchRaw = Except.ok (c :: cs))
    (ha : env.llmAnswer = Except.ok a)
    (_hs : env.storeOutcome = Except.error e) :
    (run_pipeline env (initial_state q uid)).finalState.answer = some a ∧
    (run_pipeline env (initial_state q uid)).finalState.error = none ∧
    ask_api env q uid = ApiOutcome.success
      { question := q, answer := a, commits_analyzed := (c :: cs).length } := by
  have hana : analyze_with_ai env.llmAnswer (postFetchState q uid c cs) =
      ({ postFetchState q uid c cs with answer := some a }, true) := by
    rw [analyze_with_ai_eq env.llmAnswer _ _ rfl (by simp), ha]
  unfold ask_api
  rw [run_pipeline_fetch_cons env q uid c cs hf, hana]
  simp [postFetchState, save_to_memory_fst]

/-- Claim C1 (witness): the theorem applied at one commit, a successful
answer and a failing store. -/
theorem c1_witness :
    envC1.fetchRaw = Except.ok [sampleCommit] ∧
    envC1.llmAnswer = Except.ok "You shipped 3 fixes today" ∧
    envC1.storeOutcome = Except.error "store down" ∧
    ((run_pipeline envC1 (initial_state "what did I ship?" "u1")).finalState.answer =
       some "You shipped 3 fixes today" ∧
     (run_pipeline envC1 (initial_state "what did I ship?" "u1")).finalState.error = none ∧
     ask_api envC1 "what did I ship?" "u1" = ApiOutcome.success
       { question := "what did I ship?", answer := "You shipped 3 fixes today",
         commits_analyzed := ([sampleCommit]).length }) :=
  ⟨rfl, rfl, rfl,
   c1_persist_failure_keeps_answer envC1 "what did I ship?" "u1"
     "You shipped 3 fixes today" "store down" sampleCommit [] rfl rfl rfl⟩

/-- Claim C2 (counterexample): a successful fetch of zero records routes
to the error terminal, but the final state's `error` field is never set
(it stays `none`), contradicting the claimed descriptive no-activity
message. -/
theorem c2_counterexample :
    (run_pipeline envZero (initial_state "what did I do?" "u1")).reachedErrorNode = true ∧
    (run_pipeline envZero (initial_state "what did I do?" "u1")).llmCalled = false ∧
    (run_pipeline envZero (initial_state "what did I do?" "u1")).addMemoryCalled = false ∧
    (run_pipeline envZero (initial_state "what did I do?" "u1")).finalState.error = none :=
  ⟨rfl, rfl, rfl, rfl⟩

/-- Claim C2 (amended): on a successful fetch with zero records the run
reaches the error terminal and neither the Synthesizer nor the
MemoryStore is invoked, but the `error` field (and the `answer` field)
remain unset. -/
theorem c2_zero_records_behaviour (env : Env) (q uid : String)
    (hf : env.fetchRaw = Except.ok []) :
    (run_pipeline env (initial_state q uid)).reachedErrorNode = true ∧
    (run_pipeline env (initial_state q uid)).llmCalled = false ∧
    (run_pipeline env (initial_state q uid)).addMemoryCalled = false ∧
    (run_pipeline env (initial_state q uid)).written = [] ∧
    (run_pipeline env (initial_state q uid)).finalState.error = none ∧
    (run_pipeline env (initial_state q uid)).finalState.answer = none := by
  rw [run_pipeline_fetch_nil env q uid hf]
  simp [initial_state]

/-- Claim C2 (witness): the amended theorem applied at a concrete
zero-record fetch. -/
theorem c2_witness :
    envZero.fetchRaw = Except.ok [] ∧
    ((run_pipeline envZero (initial_state "what happened?" "u2")).reachedErrorNode = true ∧
     (run_pipeline envZero (initial_state "what happened?" "u2")).llmCalled = false ∧
     (run_pipeline envZero (initial_state "what happened?" "u2")).addMemoryCalled = false ∧
     (run_pipeline envZero (initial_state "what happened?" "u2")).written = [] ∧
     (run_pipeline envZero (initial_state "what happened?" "u2")).finalState.error = none ∧
     (run_pipeline envZero (initial_state "what happened?" "u2")).finalState.answer = none) :=
  ⟨rfl, c2_zero_records_behaviour envZero "what happened?" "u2" rfl⟩

/-- Claim C3: at a concrete run whose Synthesizer call times out, the
error field is set but the run does not pass through the error node, the
memory service is invoked, a store write is attempted and a record (with
an absent answer) is actually created — diverging from the claim that no
MemoryStore write happens on the analyze error path. -/
theorem c3_divergence_store_called_after_ai_failure :
    (run_pipeline envC3 (initial_state "what did I do?" "u1")).finalState.error =
      some "AI failed: AI service request timed out. Please try again." ∧
    (run_pipeline envC3 (initial_state "what did I do?" "u1")).reachedErrorNode = false ∧
    (run_pipeline envC3 (initial_state "what did I do?" "u1")).addMemoryCalled = true ∧
    (run_pipeline envC3 (initial_state "what did I do?" "u1")).storeAddAttempted = true ∧
    (run_pipeline envC3 (initial_state "what did I do?" "u1")).written ≠ [] ∧
    ∀ r ∈ (run_pipeline envC3 (initial_state "what did I do?" "u1")).written,
      r.answer = none := by
  refine ⟨rfl, rfl, rfl, rfl, by decide, by decide⟩

/-- Claim C4 (counterexample): the zero-record run terminates (at the
error node) with both `answer` and `error` absent, contradicting
"exactly one of answer and error is set in every completed run". -/
theorem c4_counterexample :
    (run_pipeline envZero (initial_state "what did I do?" "u3")).finalState.answer = none ∧
    (run_pipeline envZero (initial_state "what did I do?" "u3")).finalState.error = none ∧
    (run_pipeline envZero (initial_state "what did I do?" "u3")).reachedErrorNode = true :=
  ⟨rfl, rfl, rfl⟩

/-- Claim C4 (amended): in every completed run except the
successful-fetch-with-zero-records one, exactly one of the final state's
`answer` and `error` fields is set; in the zero-records run both remain
absent. -/
theorem c4_exactly_one_answer_or_error (env : Env) (q uid : String)
    (h : env.fetchRaw ≠ Except.ok []) :
    ((run_pipeline env (initial_state q uid)).finalState.answer.isSome = true ∧
     (run_pipeline env (initial_state q uid)).finalState.error = none) ∨
    ((run_pipeline env (initial_state q uid)).finalState.answer = none ∧
     (run_pipeline env (initial_state q uid)).finalState.error.isSome = true) := by
  cases hf : env.fetchRaw with
  | error e =>
    rw [run_pipeline_fetch_error env q uid e hf]
    right
    simp [initial_state]
  | ok cs =>
    cases cs with
    | nil => exact absurd hf h
    | cons c cs' =>
      rw [run_pipeline_fetch_cons env q uid c cs' hf]
      rw [analyze_with_ai_eq env.llmAnswer _ _ rfl (by simp)]
      cases hl : env.llmAnswer with
      | ok a =>
        left
        simp [postFetchState]
      | error e =>
        right
        simp [postFetchState]

/-- Claim C4 (witness): the amended theorem applied at a failing
fetch. -/
theorem c4_witness :
    envFetchFail.fetchRaw ≠ Except.ok [] ∧
    (((run_pipeline envFetchFail (initial_state "what did I do?" "u1")).finalState.answer.isSome = true ∧
      (run_pipeline envFetchFail (initial_state "what did I do?" "u1")).finalState.error = none) ∨
     ((run_pipeline envFetchFail (initial_state "what did I do?" "u1")).finalState.answer = none ∧
      (run_pipeline envFetchFail (initial_state "what did I do?" "u1")).finalState.error.isSome = true)) :=
  ⟨by simp [envFetchFail], c4_exactly_one_answer_or_error envFetchFail "what did I do?" "u1"
    (by simp [envFetchFail])⟩

/-- Claim C10: after a successful fetch the state's commit count equals
the length of the fetched record list, the fetched data itself is carried
unchanged into the final state, and every MemoryRecord written in the run
stores that same count in its metadata. -/
theorem c10_commit_count_invariant (env : Env) (q uid : String) (cs : List Commit)
    (hf : env.fetchRaw = Except.ok cs) :
    (run_pipeline env (initial_state q uid)).finalState.commits_analyzed = cs.length ∧
    (run_pipeline env (initial_state q uid)).finalState.github_data =
      some { commits := cs, total_commits := cs.length, time_range := "last 24 hours" } ∧
    ∀ r ∈ (run_pipeline env (initial_state q uid)).written,
      r.metadata.commits_analyzed = cs.length := by
  cases cs with
  | nil =>
    rw [run_pipeline_fetch_nil env q uid hf]
    simp [initial_state]
  | cons c cs' =>
    rw [run_pipeline_fetch_cons env q uid c cs' hf]
    rw [analyze_with_ai_eq env.llmAnswer _ _ rfl (by simp)]
    cases hl : env.llmAnswer with
    | ok a =>
      refine ⟨by simp [postFetchState], by simp [postFetchState], ?_⟩
      intro r hr
      simp only [save_to_memory] at hr
      exact add_memory_written_meta _ _ _ _ _ _ r hr
    | error e =>
      refine ⟨by simp [postFetchState], by simp [postFetchState], ?_⟩
      intro r hr
      simp only [save_to_memory] at hr
      exact add_memory_written_meta _ _ _ _ _ _ r hr

/-- Claim C10 (witness): the theorem applied at a concrete successful
one-commit run. -/
theorem c10_witness :
    envC1.fetchRaw = Except.ok [sampleCommit] ∧
    ((run_pipeline envC1 (initial_state "count?" "u1")).finalState.commits_analyzed =
       ([sampleCommit]).length ∧
     (run_pipeline envC1 (initial_state "count?" "u1")).finalState.github_data =
       some { commits := [sampleCommit], total_commits := ([sampleCommit]).length,
              time_range := "last 24 hours" } ∧
     ∀ r ∈ (run_pipeline envC1 (initial_state "count?" "u1")).written,
       r.metadata.commits_analyzed = ([sampleCommit]).length) :=
  ⟨rfl, c10_commit_count_invariant envC1 "count?" "u1" [sampleCommit] rfl⟩

end GithubBot
